import Mathlib

/-!
Shallow embedding of the XAUUSD assistant's core pipeline: the response
parser and safety gate (`MarketAnalyzer.parse_structured_output`), the alert
gate (`should_alert`), the mode and session helpers, and the logger's
retention trimming (`TradingLogger`).  Sources: src/analyzer.py,
src/logger.py, src/config.py.

The Python parser works by `re.search` over the raw model text with one
fixed pattern per field.  Each pattern is of the shape
`Label:\s*TOKEN` where TOKEN is an alternation of enum words, `(\d+)`, or
`\$?(\d+(?:\.\d+)?)`; the two section patterns are lazy captures up to a
stop marker.  The embedding models `re.search` as trying a position matcher
at every start position, leftmost first; greedy `\s*` followed by a token
that cannot start with whitespace needs no backtracking, so maximal-munch
whitespace skipping is exact.  Whitespace and digits are the ASCII classes.
-/

namespace XauUsd

/-- Python whitespace class of the patterns (ASCII range of re's white space):
space, tab, newline, carriage return, vertical tab, form feed. -/
def isPySpace (c : Char) : Bool :=
  c == ' ' || c == '\t' || c == '\n' || c == '\r' || c == '\x0b' || c == '\x0c'

/-- Try to strip the literal `pat` from the front of `s`; when `ci` is true the
comparison is case-insensitive (re.IGNORECASE).  Returns the rest of `s` on
success. -/
def stripLit (ci : Bool) : List Char → List Char → Option (List Char)
  | [], s => some s
  | _ :: _, [] => none
  | p :: ps, c :: cs =>
      if (if ci then p.toLower == c.toLower else p == c) then stripLit ci ps cs
      else none

/-- Model of re.search: try the position matcher `m` at every start position
of the text, leftmost first. -/
def searchFirst (m : List Char → Option α) : List Char → Option α
  | [] => m []
  | c :: cs =>
      match m (c :: cs) with
      | some v => some v
      | none => searchFirst m cs

/-- Greedy whitespace skip, the patterns' `\s*` before a non-whitespace token. -/
def dropSpaces (s : List Char) : List Char := s.dropWhile isPySpace

/-- Python `str.strip()`: whitespace removed from both ends. -/
def stripWS (s : List Char) : List Char :=
  ((s.dropWhile isPySpace).reverse.dropWhile isPySpace).reverse

/-- Python `str.strip('- ')`: dash and space characters removed from both ends. -/
def stripDashSpace (s : List Char) : List Char :=
  ((s.dropWhile fun c => c == '-' || c == ' ').reverse.dropWhile
    fun c => c == '-' || c == ' ').reverse

/-- Numeric value of a digit run, the `int(...)` of a `(\d+)` group. -/
def digitsVal (ds : List Char) : Nat :=
  ds.foldl (fun n c => 10 * n + (c.toNat - ('0').toNat)) 0

/-- Greedy `(\d+)` at the current position, converted by `int(...)`. -/
def matchNat (s : List Char) : Option Nat :=
  let ds := s.takeWhile Char.isDigit
  if ds.isEmpty then none else some (digitsVal ds)

/-- Greedy `(\d+(?:\.\d+)?)` at the current position, converted by
`float(...)`; the matched decimal literal is represented exactly as a
rational. -/
def matchFloat (s : List Char) : Option ℚ :=
  let ds := s.takeWhile Char.isDigit
  if ds.isEmpty then none
  else
    match s.dropWhile Char.isDigit with
    | '.' :: r2 =>
        let fs := r2.takeWhile Char.isDigit
        if fs.isEmpty then some (mkRat (digitsVal ds) 1)
        else
          some (mkRat (digitsVal ds * 10 ^ fs.length + digitsVal fs) (10 ^ fs.length))
    | _ => some (mkRat (digitsVal ds) 1)

/-- Match one of the alternatives at the current position, returning the
canonical alternative itself, which mirrors `.group(1).upper()` for the
case-insensitive enum patterns whose alternatives are upper-case words. -/
def matchAlts (ci : Bool) : List (List Char) → List Char → Option (List Char)
  | [], _ => none
  | a :: rest, s =>
      match stripLit ci a s with
      | some _ => some a
      | none => matchAlts ci rest s

/-- Position matcher of `Market Bias:\s*(BULLISH|BEARISH|NEUTRAL)` (IGNORECASE). -/
def matchBiasAt (s : List Char) : Option (List Char) :=
  match stripLit true (("Market Bias:").toList) s with
  | none => none
  | some r =>
      matchAlts true [("BULLISH").toList, ("BEARISH").toList, ("NEUTRAL").toList]
        (dropSpaces r)

/-- Market-bias field of src/analyzer.py lines 439-440, default NEUTRAL. -/
def extract_market_bias (text : String) : String :=
  match searchFirst matchBiasAt text.toList with
  | some v => String.mk v
  | none => ("NEUTRAL")

/-- Position matcher of `Bias Strength:\s*(\d+)` (case-sensitive). -/
def matchStrengthAt (s : List Char) : Option Nat :=
  match stripLit false (("Bias Strength:").toList) s with
  | none => none
  | some r => matchNat (dropSpaces r)

/-- Bias-strength field of src/analyzer.py lines 443-445: default 5,
then clamped by `max(1, min(10, .))`. -/
def extract_bias_strength (text : String) : Nat :=
  let v := (searchFirst matchStrengthAt text.toList).getD 5
  max 1 (min 10 v)

/-- Position matcher of `Confidence Score:\s*(\d+)` (case-sensitive). -/
def matchConfAt (s : List Char) : Option Nat :=
  match stripLit false (("Confidence Score:").toList) s with
  | none => none
  | some r => matchNat (dropSpaces r)

/-- Confidence field of src/analyzer.py lines 448-450: default 0,
then clamped by `max(0, min(10, .))`. -/
def extract_confidence (text : String) : Nat :=
  let v := (searchFirst matchConfAt text.toList).getD 0
  max 0 (min 10 v)

/-- Position matcher of `Trade Recommendation:\s*(BUY|SELL|NO TRADE)` (IGNORECASE). -/
def matchTradeAt (s : List Char) : Option (List Char) :=
  match stripLit true (("Trade Recommendation:").toList) s with
  | none => none
  | some r =>
      matchAlts true [("BUY").toList, ("SELL").toList, ("NO TRADE").toList]
        (dropSpaces r)

/-- Raw trade-recommendation field of src/analyzer.py lines 453-454,
default NO TRADE, before the safety overrides. -/
def extract_trade_recommendation (text : String) : String :=
  match searchFirst matchTradeAt text.toList with
  | some v => String.mk v
  | none => ("NO TRADE")

/-- Position matcher of `Risk Level:\s*(LOW|MEDIUM|HIGH)` (IGNORECASE). -/
def matchRiskAt (s : List Char) : Option (List Char) :=
  match stripLit true (("Risk Level:").toList) s with
  | none => none
  | some r =>
      matchAlts true [("LOW").toList, ("MEDIUM").toList, ("HIGH").toList]
        (dropSpaces r)

/-- Risk-level field of src/analyzer.py lines 462-463, default HIGH. -/
def extract_risk_level (text : String) : String :=
  match searchFirst matchRiskAt text.toList with
  | some v => String.mk v
  | none => ("HIGH")

/-- Position matcher of `LABEL\s*\$?(\d+(?:\.\d+)?)` used by the three price
fields (case-sensitive). -/
def matchMoneyAt (label : List Char) (s : List Char) : Option ℚ :=
  match stripLit false label s with
  | none => none
  | some r =>
      match dropSpaces r with
      | '$' :: r2 => matchFloat r2
      | r2 => matchFloat r2

/-- Stop-loss field of src/analyzer.py lines 471-472: absent when unparsable. -/
def extract_stop_loss (text : String) : Option ℚ :=
  searchFirst (matchMoneyAt (("Stop Loss:").toList)) text.toList

/-- First take-profit field of src/analyzer.py lines 475-477. -/
def extract_take_profit_1 (text : String) : Option ℚ :=
  searchFirst (matchMoneyAt (("Take Profit 1:").toList)) text.toList

/-- Second take-profit field of src/analyzer.py lines 476-478. -/
def extract_take_profit_2 (text : String) : Option ℚ :=
  searchFirst (matchMoneyAt (("Take Profit 2:").toList)) text.toList

/-- Suffix after the first (leftmost, case-sensitive) occurrence of `pat`. -/
def findAfter (pat : List Char) : List Char → Option (List Char)
  | [] => stripLit false pat []
  | c :: cs =>
      match stripLit false pat (c :: cs) with
      | some r => some r
      | none => findAfter pat cs

/-- Prefix up to the first occurrence of `pat`, the whole input when `pat`
never occurs: the lazy section capture `(.*?)(?=pat|$)` under re.DOTALL,
up to a trailing-newline nuance that the following `.strip()` erases. -/
def takeUntilSub (pat : List Char) : List Char → List Char
  | [] => []
  | c :: cs =>
      match stripLit false pat (c :: cs) with
      | some _ => []
      | none => c :: takeUntilSub pat cs

/-- Python `str.split('\n')`. -/
def splitNL : List Char → List (List Char)
  | [] => [[]]
  | c :: cs =>
      if c == '\n' then [] :: splitNL cs
      else
        match splitNL cs with
        | l :: ls => (c :: l) :: ls
        | [] => [[c]]

/-- Key-factors field of src/analyzer.py lines 486-490: the block between
`Key Factors:` and `Technical Setup:` (or end), stripped, split into lines;
a line is kept when its stripped form begins with a dash, and the kept value
is the line with dash and space characters stripped, then whitespace stripped. -/
def extract_key_factors (text : String) : List String :=
  match findAfter (("Key Factors:").toList) text.toList with
  | none => []
  | some rest =>
      let sect := stripWS (takeUntilSub (("Technical Setup:").toList) rest)
      ((splitNL sect).filter fun l =>
          match stripWS l with
          | '-' :: _ => true
          | _ => false).map
        fun l => String.mk (stripWS (stripDashSpace l))

/-- Invalidation field of src/analyzer.py lines 493-494: the block after
`Invalidation:` up to `---` (or end), stripped; default when absent. -/
def extract_invalidation (text : String) : String :=
  match findAfter (("Invalidation:").toList) text.toList with
  | none => ("Not specified")
  | some rest => String.mk (stripWS (takeUntilSub (("---").toList) rest))

/-- The analyzer's four-mode taxonomy (src/analyzer.py `_determine_mode`). -/
inductive Mode
  | ultra_scalping
  | scalping
  | intraday
  | swing
  deriving DecidableEq, Inhabited

/-- Python `str.lower()` character by character (identical to lower-casing the
whole string for the ASCII mode names compared here). -/
def pyLower (s : String) : String := String.mk (s.toList.map Char.toLower)

/-- Source `MarketAnalyzer._determine_mode` (src/analyzer.py lines 31-44). -/
def determine_mode (mode : String) (timeframe : String) : Mode :=
  let m := pyLower mode
  if m = "ultra_scalping" then Mode.ultra_scalping
  else if m = "scalping" then Mode.scalping
  else if m = "intraday" then Mode.intraday
  else if m = "swing" then Mode.swing
  else if timeframe = "M1" ∨ timeframe = "M3" ∨ timeframe = "M5" then
    Mode.ultra_scalping
  else if timeframe = "M15" ∨ timeframe = "M30" then Mode.scalping
  else if timeframe = "H1" ∨ timeframe = "H4" then Mode.intraday
  else if timeframe = "D1" then Mode.swing
  else Mode.intraday

/-- Source `get_trading_session` (src/analyzer.py lines 47-60), as a function
of the current UTC hour. -/
def get_trading_session (hour : Nat) : String :=
  if hour < 8 then ("ASIA")
  else if hour < 16 then ("LONDON")
  else if hour < 22 then ("NEW_YORK")
  else ("ASIA_LATE")

/-- Session label of a minute of the UTC day, through its hour, used to state
the partition property over all 1440 minutes. -/
def session_of_minute (m : Nat) : String := get_trading_session (m / 60)

/-- The slice of the market-data snapshot that `parse_structured_output` reads. -/
structure MarketSnapshot where
  current_price : Option ℚ
  recent_trend : Option String
  news_count : Nat
  high_relevance_news_count : Nat
  deriving DecidableEq

/-- The `market_data_summary` sub-record of a successful parse. -/
structure MarketDataSummary where
  price : Option ℚ
  trend : Option String
  news_count : Nat
  high_relevance_news : Nat
  deriving DecidableEq, Inhabited

/-- A successful analysis record, the `success=True` dictionary built by
`parse_structured_output` (wall-clock timestamp omitted). -/
structure AnalysisRecord where
  analysis_id : String
  analysis_mode : Mode
  session : String
  current_price : Option ℚ
  market_bias : String
  bias_strength : Nat
  trade_recommendation : String
  confidence : Nat
  risk_level : String
  stop_loss : Option ℚ
  take_profit_1 : Option ℚ
  take_profit_2 : Option ℚ
  key_factors : List String
  invalidation : String
  full_analysis : String
  market_data_summary : MarketDataSummary
  deriving DecidableEq, Inhabited

/-- Result of the parser: either a `success=True` record or the
`success=False` dictionary carrying the error text and the raw output. -/
inductive ParseOutput
  | success (record : AnalysisRecord)
  | failure (error : String) (raw_output : Option String) (analysis_id : String)
  deriving DecidableEq

/-- Python truthiness of the optional stop-loss price: `None` and `0.0` are
falsy, which is what `not stop_loss` and `not analysis.get('stop_loss')`
test in the source. -/
def truthyPrice : Option ℚ → Bool
  | none => false
  | some x => x != 0

/-- The three safety overrides of `parse_structured_output`
(src/analyzer.py lines 456-483), in source order: confidence below 6,
scalping mode with HIGH risk, and BUY/SELL without a truthy stop loss
each force NO TRADE. -/
def apply_safety (mode : Mode) (trade : String) (confidence : Nat)
    (risk_level : String) (stop_loss : Option ℚ) : String :=
  let t1 := if confidence < 6 then ("NO TRADE") else trade
  let t2 := if mode = Mode.scalping ∧ risk_level = "HIGH" then ("NO TRADE") else t1
  if (t2 = "BUY" ∨ t2 = "SELL") ∧ truthyPrice stop_loss = false then ("NO TRADE")
  else t2

/-- Source `MarketAnalyzer.parse_structured_output` (src/analyzer.py lines
434-541).  The raw model text is an `Option String`: `none` stands for a
non-text value, on which the first `re.search` raises inside the `try` and
the `except` branch returns the `success=False` record carrying the raw
input and the error text.  The session is computed from the given UTC hour
exactly as in `get_trading_session`; wall-clock timestamps are omitted. -/
def parse_structured_output (analysis_text : Option String)
    (market_data : MarketSnapshot) (mode : Mode)
    (analysis_id : String) (hour : Nat) : ParseOutput :=
  match analysis_text with
  | none =>
      ParseOutput.failure
        ("Parsing failed: expected string or bytes-like object") none analysis_id
  | some text =>
      ParseOutput.success
        { analysis_id := analysis_id,
          analysis_mode := mode,
          session := get_trading_session hour,
          current_price := market_data.current_price,
          market_bias := extract_market_bias text,
          bias_strength := extract_bias_strength text,
          trade_recommendation :=
            apply_safety mode (extract_trade_recommendation text)
              (extract_confidence text) (extract_risk_level text)
              (extract_stop_loss text),
          confidence := extract_confidence text,
          risk_level := extract_risk_level text,
          stop_loss := extract_stop_loss text,
          take_profit_1 := extract_take_profit_1 text,
          take_profit_2 := extract_take_profit_2 text,
          key_factors := extract_key_factors text,
          invalidation := extract_invalidation text,
          full_analysis := text,
          market_data_summary :=
            { price := market_data.current_price,
              trend := market_data.recent_trend,
              news_count := market_data.news_count,
              high_relevance_news := market_data.high_relevance_news_count } }

/-- Source `CONFIDENCE_THRESHOLD = 6` (src/config.py). -/
def CONFIDENCE_THRESHOLD : Nat := 6

/-- Source `MarketAnalyzer.should_alert` (src/analyzer.py lines 543-572);
the first argument is the analyzer's `analysis_mode` field. -/
def should_alert (analysis_mode : Mode) (analysis : ParseOutput) : Bool :=
  match analysis with
  | ParseOutput.failure _ _ _ => false
  | ParseOutput.success a =>
      if a.trade_recommendation = "NO TRADE" then false
      else if a.confidence < CONFIDENCE_THRESHOLD then false
      else if analysis_mode = Mode.scalping ∧ a.confidence < 7 then false
      else if analysis_mode = Mode.scalping ∧ a.risk_level = "HIGH" then false
      else if truthyPrice a.stop_loss = false then false
      else true

/-- Retention trim shared by the three logger appends: Python `lst[-n:]`
taken only when the list exceeds `n` entries. -/
def trimTo (n : Nat) (l : List α) : List α :=
  if l.length > n then l.drop (l.length - n) else l

/-- Stored-list update of `TradingLogger.log_analysis`
(src/logger.py lines 55-59): append, then keep the last 500 entries. -/
def log_analysis (log_data : List α) (entry : α) : List α :=
  trimTo 500 (log_data ++ [entry])

/-- Stored-list update of `TradingLogger.log_performance`
(src/logger.py lines 93-97): append, then keep the last 200 entries. -/
def log_performance (perf_data : List α) (entry : α) : List α :=
  trimTo 200 (perf_data ++ [entry])

/-- Stored-list update of `TradingLogger.save_market_data`
(src/logger.py lines 172-176): append, then keep the last 1000 entries. -/
def save_market_data (history : List α) (entry : α) : List α :=
  trimTo 1000 (history ++ [entry])

/-- Modelled from the claim's four-mode taxonomy: the most latency-sensitive
(tight/scalping) class, comprising ultra_scalping as well as scalping. -/
def tight_class_spec : Mode → Bool
  | Mode.ultra_scalping => true
  | Mode.scalping => true
  | Mode.intraday => false
  | Mode.swing => false

/-! ### Helper lemmas -/

theorem matchAlts_mem (ci : Bool) (alts : List (List Char)) (s : List Char)
    (v : List Char) (h : matchAlts ci alts s = some v) : v ∈ alts := by
  induction alts with
  | nil => simp [matchAlts] at h
  | cons a rest ih =>
      rw [matchAlts] at h
      rcases hs : stripLit ci a s with _ | r
      · rw [hs] at h
        exact List.mem_cons_of_mem a (ih h)
      · rw [hs] at h
        injection h with h2
        rw [← h2]
        exact List.mem_cons_self _ _

theorem searchFirst_prop {α : Type} {p : α → Prop} (m : List Char → Option α)
    (hm : ∀ s v, m s = some v → p v) :
    ∀ (l : List Char) (v : α), searchFirst m l = some v → p v := by
  intro l
  induction l with
  | nil => intro v h; exact hm [] v h
  | cons c cs ih =>
      intro v h
      rw [searchFirst] at h
      rcases hc : m (c :: cs) with _ | w
      · rw [hc] at h
        exact ih v h
      · rw [hc] at h
        cases h
        exact hm (c :: cs) v hc

theorem matchTradeAt_mem (s : List Char) (v : List Char)
    (h : matchTradeAt s = some v) :
    v ∈ [("BUY").toList, ("SELL").toList, ("NO TRADE").toList] := by
  rw [matchTradeAt] at h
  rcases hs : stripLit true (("Trade Recommendation:").toList) s with _ | r
  · rw [hs] at h; cases h
  · rw [hs] at h
    exact matchAlts_mem _ _ _ _ h

/-- The raw trade-recommendation extraction only ever yields one of the three
canonical values. -/
theorem extract_trade_mem (text : String) :
    extract_trade_recommendation text = ("BUY") ∨
      extract_trade_recommendation text = ("SELL") ∨
      extract_trade_recommendation text = ("NO TRADE") := by
  rw [extract_trade_recommendation]
  rcases hs : searchFirst matchTradeAt text.toList with _ | v
  · right; right; rfl
  · have hv := searchFirst_prop matchTradeAt matchTradeAt_mem text.toList v hs
    simp only [List.mem_cons, List.not_mem_nil, or_false] at hv
    rcases hv with h | h | h
    · left; rw [h]; rfl
    · right; left; rw [h]; rfl
    · right; right; rw [h]; rfl

/-- Case analysis of the safety-override chain: either some override fired and
the result is NO TRADE, or no override fired, the raw recommendation is kept,
and all three gate conditions are discharged. -/
theorem apply_safety_cases (m : Mode) (t : String) (c : Nat) (rl : String)
    (sl : Option ℚ) :
    apply_safety m t c rl sl = ("NO TRADE") ∨
      (apply_safety m t c rl sl = t ∧ 6 ≤ c ∧
        ¬(m = Mode.scalping ∧ rl = ("HIGH")) ∧
        ((t = ("BUY") ∨ t = ("SELL")) → truthyPrice sl = true)) := by
  by_cases hc : c < 6
  · left
    simp only [apply_safety, if_pos hc]
    split
    · split
      · rfl
      · rfl
    · split
      · rfl
      · rfl
  · by_cases hm : m = Mode.scalping ∧ rl = ("HIGH")
    · left
      simp only [apply_safety, if_neg hc, if_pos hm]
      split
      · rfl
      · rfl
    · simp only [apply_safety, if_neg hc, if_neg hm]
      by_cases hf : (t = ("BUY") ∨ t = ("SELL")) ∧ truthyPrice sl = false
      · left
        simp only [if_pos hf]
      · right
        refine ⟨by simp only [if_neg hf], by omega, hm, ?_⟩
        intro ht
        rcases hb : truthyPrice sl with _ | _
        · exact absurd ⟨ht, hb⟩ hf
        · rfl

theorem apply_safety_low_conf (m : Mode) (t : String) (c : Nat) (rl : String)
    (sl : Option ℚ) (hc : c < 6) : apply_safety m t c rl sl = ("NO TRADE") := by
  rcases apply_safety_cases m t c rl sl with h | ⟨_, h6, _, _⟩
  · exact h
  · omega

theorem apply_safety_scalping_high (t : String) (c : Nat) (sl : Option ℚ) :
    apply_safety Mode.scalping t c ("HIGH") sl = ("NO TRADE") := by
  rcases apply_safety_cases Mode.scalping t c ("HIGH") sl with h | ⟨_, _, hm, _⟩
  · exact h
  · exact absurd ⟨rfl, rfl⟩ hm

/-- A truthy optional price is present. -/
theorem truthyPrice_isSome (sl : Option ℚ) (h : truthyPrice sl = true) :
    sl.isSome = true := by
  cases sl with
  | none => cases h
  | some x => rfl

/-- Inversion of a successful parse: every field of the returned record is the
corresponding per-field extraction of the raw text, and the recommendation is
the raw extraction routed through the safety-override chain. -/
theorem parse_success_fields (text : String) (md : MarketSnapshot) (mode : Mode)
    (id : String) (hour : Nat) (r : AnalysisRecord)
    (h : parse_structured_output (some text) md mode id hour = ParseOutput.success r) :
    r.confidence = extract_confidence text ∧
    r.risk_level = extract_risk_level text ∧
    r.stop_loss = extract_stop_loss text ∧
    r.trade_recommendation =
      apply_safety mode (extract_trade_recommendation text) (extract_confidence text)
        (extract_risk_level text) (extract_stop_loss text) ∧
    r.bias_strength = extract_bias_strength text ∧
    r.market_bias = extract_market_bias text ∧
    r.take_profit_1 = extract_take_profit_1 text ∧
    r.take_profit_2 = extract_take_profit_2 text ∧
    r.key_factors = extract_key_factors text ∧
    r.invalidation = extract_invalidation text ∧
    r.full_analysis = text ∧
    r.analysis_mode = mode ∧
    r.session = get_trading_session hour := by
  simp only [parse_structured_output, ParseOutput.success.injEq] at h
  subst h
  exact ⟨rfl, rfl, rfl, rfl, rfl, rfl, rfl, rfl, rfl, rfl, rfl, rfl, rfl⟩

/-- A concrete market snapshot shared by the witnesses. -/
def exMD : MarketSnapshot :=
  { current_price := some 2400, recent_trend := some ("up"),
    news_count := 3, high_relevance_news_count := 1 }

/-! ### C1 -/

/-- C1: for every raw model text and every mode, a record returned with
success by the parser whose confidence field is below 6 has trade
recommendation NO TRADE, regardless of the recommendation stated in the raw
text. -/
theorem C1_low_confidence_forces_no_trade (text : String) (md : MarketSnapshot)
    (mode : Mode) (id : String) (hour : Nat) (r : AnalysisRecord)
    (h : parse_structured_output (some text) md mode id hour = ParseOutput.success r)
    (hc : r.confidence < 6) : r.trade_recommendation = ("NO TRADE") := by
  obtain ⟨hconf, _, _, htr, _⟩ := parse_success_fields text md mode id hour r h
  rw [hconf] at hc
  rw [htr]
  exact apply_safety_low_conf _ _ _ _ _ hc

def c1Text : String :=
  "Trade Recommendation: BUY\nConfidence Score: 4\nStop Loss: 2390"

/-- The record parsed from `c1Text` in intraday mode. -/
def c1Rec : AnalysisRecord :=
  match parse_structured_output (some c1Text) exMD Mode.intraday ("w1") 10 with
  | ParseOutput.success r => r
  | ParseOutput.failure _ _ _ => default

/-- Witness for C1: a concrete text stating BUY at confidence 4 parses to a
success record recommending NO TRADE. -/
theorem C1_witness :
    parse_structured_output (some c1Text) exMD Mode.intraday ("w1") 10
        = ParseOutput.success c1Rec ∧
      c1Rec.confidence < 6 ∧ c1Rec.trade_recommendation = ("NO TRADE") :=
  ⟨rfl, by decide,
    C1_low_confidence_forces_no_trade c1Text exMD Mode.intraday ("w1") 10 c1Rec rfl
      (by decide)⟩

/-! ### C2 -/

def c2Text : String :=
  "Trade Recommendation: BUY\nConfidence Score: 8\nRisk Level: HIGH\nStop Loss: 2400"

/-- The record parsed from `c2Text` in ultra_scalping mode. -/
def c2Rec : AnalysisRecord :=
  match parse_structured_output (some c2Text) exMD Mode.ultra_scalping ("w2") 10 with
  | ParseOutput.success r => r
  | ParseOutput.failure _ _ _ => default

/-- C2 counterexample: ultra_scalping belongs to the claim's tight/scalping
class, yet a HIGH-risk record with confidence 8 parsed in ultra_scalping mode
keeps its BUY recommendation: the source override tests equality with the
literal mode string scalping only. -/
theorem C2_counterexample :
    tight_class_spec Mode.ultra_scalping = true ∧
    determine_mode ("ultra_scalping") ("M1") = Mode.ultra_scalping ∧
    parse_structured_output (some c2Text) exMD Mode.ultra_scalping ("w2") 10
        = ParseOutput.success c2Rec ∧
    c2Rec.risk_level = ("HIGH") ∧ 6 ≤ c2Rec.confidence ∧
    c2Rec.trade_recommendation = ("BUY") :=
  ⟨rfl, by decide, rfl, by decide, by decide, by decide⟩

/-- C2 amended: the HIGH-risk override holds for the literal scalping mode
(not for ultra_scalping): every success record parsed in scalping mode with
riskLevel HIGH has trade recommendation NO TRADE, even when confidence is at
least 6. -/
theorem C2_amended_scalping_high_forces_no_trade (text : String)
    (md : MarketSnapshot) (id : String) (hour : Nat) (r : AnalysisRecord)
    (h : parse_structured_output (some text) md Mode.scalping id hour
      = ParseOutput.success r)
    (hr : r.risk_level = ("HIGH")) : r.trade_recommendation = ("NO TRADE") := by
  obtain ⟨_, hrisk, _, htr, _⟩ := parse_success_fields text md Mode.scalping id hour r h
  rw [hrisk] at hr
  rw [htr, hr]
  exact apply_safety_scalping_high _ _ _

/-- The record parsed from `c2Text` in scalping mode. -/
def c2wRec : AnalysisRecord :=
  match parse_structured_output (some c2Text) exMD Mode.scalping ("w2a") 10 with
  | ParseOutput.success r => r
  | ParseOutput.failure _ _ _ => default

/-- Witness for the amended C2: the same HIGH-risk confidence-8 text parsed
in scalping mode recommends NO TRADE. -/
theorem C2_amended_witness :
    c2wRec.risk_level = ("HIGH") ∧ 6 ≤ c2wRec.confidence ∧
      c2wRec.trade_recommendation = ("NO TRADE") :=
  ⟨by decide, by decide,
    C2_amended_scalping_high_forces_no_trade c2Text exMD ("w2a") 10 c2wRec rfl
      (by decide)⟩

/-! ### C3 -/

/-- C3: in every success record, a BUY or SELL recommendation comes with a
parsed stop-loss value, and when no stop loss parses the recommendation is
NO TRADE. -/
theorem C3_stop_loss_required (text : String) (md : MarketSnapshot) (mode : Mode)
    (id : String) (hour : Nat) (r : AnalysisRecord)
    (h : parse_structured_output (some text) md mode id hour = ParseOutput.success r) :
    ((r.trade_recommendation = ("BUY") ∨ r.trade_recommendation = ("SELL")) →
        r.stop_loss.isSome = true) ∧
      (r.stop_loss = none → r.trade_recommendation = ("NO TRADE")) := by
  obtain ⟨_, _, hsl, htr, _⟩ := parse_success_fields text md mode id hour r h
  constructor
  · intro hb
    rw [htr] at hb
    rcases apply_safety_cases mode (extract_trade_recommendation text)
        (extract_confidence text) (extract_risk_level text) (extract_stop_loss text)
      with hcase | ⟨heq, _, _, himp⟩
    · rw [hcase] at hb
      rcases hb with hb | hb
      · exact absurd hb (by decide)
      · exact absurd hb (by decide)
    · rw [heq] at hb
      rw [hsl]
      exact truthyPrice_isSome _ (himp hb)
  · intro hn
    rw [hsl] at hn
    rcases apply_safety_cases mode (extract_trade_recommendation text)
        (extract_confidence text) (extract_risk_level text) (extract_stop_loss text)
      with hcase | ⟨heq, _, _, himp⟩
    · rw [htr, hcase]
    · rw [htr, heq]
      rcases extract_trade_mem text with ht | ht | ht
      · have hb := himp (Or.inl ht)
        rw [hn] at hb
        exact absurd hb (by decide)
      · have hb := himp (Or.inr ht)
        rw [hn] at hb
        exact absurd hb (by decide)
      · exact ht

def c3Text : String :=
  "Trade Recommendation: SELL\nConfidence Score: 9\nRisk Level: LOW\nStop Loss: $2385.25"

/-- The record parsed from `c3Text` in swing mode. -/
def c3Rec : AnalysisRecord :=
  match parse_structured_output (some c3Text) exMD Mode.swing ("w3") 10 with
  | ParseOutput.success r => r
  | ParseOutput.failure _ _ _ => default

/-- Witness for C3: a concrete SELL record carries its parsed stop loss. -/
theorem C3_witness : c3Rec.stop_loss.isSome = true :=
  (C3_stop_loss_required c3Text exMD Mode.swing ("w3") 10 c3Rec rfl).1
    (Or.inr (by decide))

/-! ### C4 -/

/-- C4 counterexample: a record parsed in ultra_scalping mode — a member of
the claim's tight/scalping class — with riskLevel HIGH and an active BUY
recommendation nevertheless passes the alert gate, because `should_alert`
tests the literal scalping mode only. -/
theorem C4_counterexample :
    tight_class_spec Mode.ultra_scalping = true ∧
    should_alert Mode.ultra_scalping
        (parse_structured_output (some c2Text) exMD Mode.ultra_scalping ("w2") 10)
      = true ∧
    parse_structured_output (some c2Text) exMD Mode.ultra_scalping ("w2") 10
        = ParseOutput.success c2Rec ∧
    c2Rec.risk_level = ("HIGH") ∧ c2Rec.trade_recommendation ≠ ("NO TRADE") :=
  ⟨rfl, by decide, rfl, by decide, by decide⟩

/-- C4 amended: with the tight class read as the literal scalping mode, as the
code implements it, every record that passes the alert gate satisfies the
three safety-gate invariants: confidence at least 6 or NO TRADE, no
scalping-mode record with HIGH risk and an active recommendation, and a
present stop loss for BUY/SELL. -/
theorem C4_amended_alert_implies_safety (mode : Mode) (r : AnalysisRecord)
    (h : should_alert mode (ParseOutput.success r) = true) :
    (6 ≤ r.confidence ∨ r.trade_recommendation = ("NO TRADE")) ∧
      ¬(mode = Mode.scalping ∧ r.risk_level = ("HIGH") ∧
          r.trade_recommendation ≠ ("NO TRADE")) ∧
      ((r.trade_recommendation = ("BUY") ∨ r.trade_recommendation = ("SELL")) →
        r.stop_loss.isSome = true) := by
  simp only [should_alert, CONFIDENCE_THRESHOLD] at h
  split_ifs at h with h1 h2 h3 h4 h5
  refine ⟨Or.inl (by omega), ?_, ?_⟩
  · rintro ⟨hm, hr, _⟩
    exact h4 ⟨hm, hr⟩
  · intro _
    have ht : truthyPrice r.stop_loss = true := by
      cases hb : truthyPrice r.stop_loss with
      | false => exact absurd hb h5
      | true => rfl
    exact truthyPrice_isSome _ ht

/-- A concrete scalping-mode record that passes the alert gate. -/
def c4wRec : AnalysisRecord :=
  { analysis_id := ("w4a"), analysis_mode := Mode.scalping,
    session := ("LONDON"), current_price := some 2400,
    market_bias := ("BULLISH"), bias_strength := 7,
    trade_recommendation := ("BUY"), confidence := 8,
    risk_level := ("LOW"), stop_loss := some 2390,
    take_profit_1 := some 2410, take_profit_2 := none,
    key_factors := [], invalidation := ("Not specified"),
    full_analysis := (""),
    market_data_summary :=
      { price := some 2400, trend := none, news_count := 0,
        high_relevance_news := 0 } }

/-- Witness for the amended C4 at a concrete alert-passing scalping record. -/
theorem C4_amended_witness :
    (6 ≤ c4wRec.confidence ∨ c4wRec.trade_recommendation = ("NO TRADE")) ∧
      ¬(Mode.scalping = Mode.scalping ∧ c4wRec.risk_level = ("HIGH") ∧
          c4wRec.trade_recommendation ≠ ("NO TRADE")) ∧
      ((c4wRec.trade_recommendation = ("BUY") ∨
          c4wRec.trade_recommendation = ("SELL")) →
        c4wRec.stop_loss.isSome = true) :=
  C4_amended_alert_implies_safety Mode.scalping c4wRec (by decide)

/-! ### C5 -/

def c5Text : String := "Bias Strength: -5"

/-- The record parsed from `c5Text` in intraday mode. -/
def c5Rec : AnalysisRecord :=
  match parse_structured_output (some c5Text) exMD Mode.intraday ("w5") 10 with
  | ParseOutput.success r => r
  | ParseOutput.failure _ _ _ => default

/-- C5 counterexample: the adversarial line stating a bias strength of -5 is
not matched by the parser's nonnegative-integer pattern, so the field takes
its default 5 — not the claimed clamped value 1. -/
theorem C5_counterexample :
    parse_structured_output (some c5Text) exMD Mode.intraday ("w5") 10
        = ParseOutput.success c5Rec ∧
      c5Rec.bias_strength = 5 ∧ c5Rec.bias_strength ≠ 1 :=
  ⟨rfl, by decide, by decide⟩

/-- C5 amended: for every input text the record's bias strength is an integer
in [1,10] and its confidence an integer in [0,10]; the line stating 999
clamps to 10, while the line stating -5 fails the nonnegative-integer
pattern and yields the default 5 instead of clamping to 1. -/
theorem C5_amended_ranges :
    (∀ (text : String) (md : MarketSnapshot) (mode : Mode) (id : String)
        (hour : Nat) (r : AnalysisRecord),
        parse_structured_output (some text) md mode id hour = ParseOutput.success r →
        1 ≤ r.bias_strength ∧ r.bias_strength ≤ 10 ∧ r.confidence ≤ 10) ∧
      extract_bias_strength ("Bias Strength: 999") = 10 ∧
      extract_bias_strength ("Bias Strength: -5") = 5 := by
  refine ⟨?_, by decide, by decide⟩
  intro text md mode id hour r h
  obtain ⟨hconf, _, _, _, hbs, _⟩ := parse_success_fields text md mode id hour r h
  rw [hconf, hbs]
  simp only [extract_bias_strength, extract_confidence]
  omega

/-- Witness for the amended C5 at the adversarial input. -/
theorem C5_amended_witness :
    1 ≤ c5Rec.bias_strength ∧ c5Rec.bias_strength ≤ 10 ∧ c5Rec.confidence ≤ 10 :=
  C5_amended_ranges.1 c5Text exMD Mode.intraday ("w5") 10 c5Rec rfl

/-! ### C6 -/

/-- C6: the parser never raises to its caller: it is a total function that
returns a success record for every text input — per-field extraction
failures falling back to the fields' documented defaults, as the fully
unparsable empty document shows — and it returns the failure record carrying
the raw input and an error description exactly for the non-text input. -/
theorem C6_parser_never_throws :
    (∀ (text : String) (md : MarketSnapshot) (mode : Mode) (id : String)
        (hour : Nat),
        ∃ r, parse_structured_output (some text) md mode id hour
          = ParseOutput.success r) ∧
      (∀ (md : MarketSnapshot) (mode : Mode) (id : String) (hour : Nat),
        parse_structured_output (some ("")) md mode id hour = ParseOutput.success
          { analysis_id := id, analysis_mode := mode,
            session := get_trading_session hour,
            current_price := md.current_price,
            market_bias := ("NEUTRAL"), bias_strength := 5,
            trade_recommendation := ("NO TRADE"), confidence := 0,
            risk_level := ("HIGH"), stop_loss := none, take_profit_1 := none,
            take_profit_2 := none, key_factors := [],
            invalidation := ("Not specified"), full_analysis := (""),
            market_data_summary :=
              { price := md.current_price, trend := md.recent_trend,
                news_count := md.news_count,
                high_relevance_news := md.high_relevance_news_count } }) ∧
      (∀ (md : MarketSnapshot) (mode : Mode) (id : String) (hour : Nat),
        parse_structured_output none md mode id hour
          = ParseOutput.failure
              ("Parsing failed: expected string or bytes-like object") none id) :=
  ⟨fun _ md _ id hour => ⟨_, rfl⟩,
   fun md mode id hour => by
     have hts : apply_safety mode (extract_trade_recommendation (""))
         (extract_confidence ("")) (extract_risk_level (""))
         (extract_stop_loss ("")) = ("NO TRADE") :=
       apply_safety_low_conf _ _ _ _ _ (by decide)
     simp only [parse_structured_output]
     rw [hts]
     rfl,
   fun md mode id hour => rfl⟩

/-! ### C7 -/

def c7LinesFull : List String :=
  [("Trade Recommendation: BUY"), ("Confidence Score: 8"),
   ("Risk Level: LOW"), ("Stop Loss: 2400")]

def c7LinesCut : List String :=
  [("Trade Recommendation: BUY"), ("Risk Level: LOW"), ("Stop Loss: 2400")]

def c7TextFull : String := String.intercalate ("\n") c7LinesFull

def c7TextCut : String := String.intercalate ("\n") c7LinesCut

/-- The record parsed from the full four-line document. -/
def c7RecFull : AnalysisRecord :=
  match parse_structured_output (some c7TextFull) exMD Mode.intraday ("w7") 10 with
  | ParseOutput.success r => r
  | ParseOutput.failure _ _ _ => default

/-- The record parsed from the document with the confidence line removed. -/
def c7RecCut : AnalysisRecord :=
  match parse_structured_output (some c7TextCut) exMD Mode.intraday ("w7") 10 with
  | ParseOutput.success r => r
  | ParseOutput.failure _ _ _ => default

/-- C7 counterexample: removing only the Confidence Score line (line index 1
of four) leaves every other raw field extraction unchanged, yet the returned
record's trade recommendation — an unaltered field — flips from BUY to
NO TRADE: the recommendation outcome depends on the confidence field through
the safety overrides, refuting cross-field independence of the outcomes. -/
theorem C7_counterexample :
    c7LinesFull.eraseIdx 1 = c7LinesCut ∧
      c7LinesFull.get? 1 = some ("Confidence Score: 8") ∧
      parse_structured_output (some c7TextFull) exMD Mode.intraday ("w7") 10
          = ParseOutput.success c7RecFull ∧
      parse_structured_output (some c7TextCut) exMD Mode.intraday ("w7") 10
          = ParseOutput.success c7RecCut ∧
      c7RecFull.market_bias = c7RecCut.market_bias ∧
      c7RecFull.bias_strength = c7RecCut.bias_strength ∧
      c7RecFull.risk_level = c7RecCut.risk_level ∧
      c7RecFull.stop_loss = c7RecCut.stop_loss ∧
      c7RecFull.take_profit_1 = c7RecCut.take_profit_1 ∧
      c7RecFull.take_profit_2 = c7RecCut.take_profit_2 ∧
      c7RecFull.key_factors = c7RecCut.key_factors ∧
      c7RecFull.invalidation = c7RecCut.invalidation ∧
      c7RecFull.trade_recommendation = ("BUY") ∧
      c7RecCut.trade_recommendation = ("NO TRADE") :=
  ⟨rfl, rfl, rfl, rfl, by decide, by decide, by decide, by decide, by decide,
   by decide, by decide, by decide, by decide, by decide⟩

/-- C7 amended: per-field extraction is independent in the sense that every
field of a success record other than the trade recommendation is computed by
its own extractor from the raw text alone; the trade recommendation is not
independent: it is the raw extraction routed through the safety overrides,
which also read the extracted confidence, risk level and stop loss, so
altering one of those fields' lines can change the returned recommendation. -/
theorem C7_amended_independence (text : String) (md : MarketSnapshot)
    (mode : Mode) (id : String) (hour : Nat) (r : AnalysisRecord)
    (h : parse_structured_output (some text) md mode id hour = ParseOutput.success r) :
    r.market_bias = extract_market_bias text ∧
      r.bias_strength = extract_bias_strength text ∧
      r.confidence = extract_confidence text ∧
      r.risk_level = extract_risk_level text ∧
      r.stop_loss = extract_stop_loss text ∧
      r.take_profit_1 = extract_take_profit_1 text ∧
      r.take_profit_2 = extract_take_profit_2 text ∧
      r.key_factors = extract_key_factors text ∧
      r.invalidation = extract_invalidation text ∧
      r.trade_recommendation =
        apply_safety mode (extract_trade_recommendation text)
          (extract_confidence text) (extract_risk_level text)
          (extract_stop_loss text) := by
  obtain ⟨hc, hrl, hsl, htr, hbs, hmb, hp1, hp2, hkf, hinv, _⟩ :=
    parse_success_fields text md mode id hour r h
  exact ⟨hmb, hbs, hc, hrl, hsl, hp1, hp2, hkf, hinv, htr⟩

/-- Witness for the amended C7 at the concrete full document. -/
theorem C7_amended_witness :
    c7RecFull.market_bias = extract_market_bias c7TextFull :=
  (C7_amended_independence c7TextFull exMD Mode.intraday ("w7") 10 c7RecFull rfl).1

/-! ### C8 -/

/-- C8: the session classifier is a total, non-overlapping partition of the
24-hour UTC clock: each of the 1440 minutes of the day is mapped to exactly
one of the four pairwise-distinct session labels, with the windows
00:00-08:00, 08:00-16:00, 16:00-22:00 and 22:00-24:00. -/
theorem C8_session_partition :
    (∀ m : Fin 1440,
      (session_of_minute m.val = ("ASIA") ↔ m.val < 480) ∧
        (session_of_minute m.val = ("LONDON") ↔ 480 ≤ m.val ∧ m.val < 960) ∧
        (session_of_minute m.val = ("NEW_YORK") ↔ 960 ≤ m.val ∧ m.val < 1320) ∧
        (session_of_minute m.val = ("ASIA_LATE") ↔ 1320 ≤ m.val)) ∧
      (("ASIA") : String) ≠ ("LONDON") ∧ (("ASIA") : String) ≠ ("NEW_YORK") ∧
      (("ASIA") : String) ≠ ("ASIA_LATE") ∧
      (("LONDON") : String) ≠ ("NEW_YORK") ∧
      (("LONDON") : String) ≠ ("ASIA_LATE") ∧
      (("NEW_YORK") : String) ≠ ("ASIA_LATE") := by
  constructor
  · intro m
    obtain ⟨mv, hm⟩ := m
    simp only [session_of_minute, get_trading_session]
    split_ifs with h1 h2 h3
    · exact ⟨iff_of_true rfl (by omega), iff_of_false (by decide) (by omega),
        iff_of_false (by decide) (by omega), iff_of_false (by decide) (by omega)⟩
    · exact ⟨iff_of_false (by decide) (by omega), iff_of_true rfl (by omega),
        iff_of_false (by decide) (by omega), iff_of_false (by decide) (by omega)⟩
    · exact ⟨iff_of_false (by decide) (by omega), iff_of_false (by decide) (by omega),
        iff_of_true rfl (by omega), iff_of_false (by decide) (by omega)⟩
    · exact ⟨iff_of_false (by decide) (by omega), iff_of_false (by decide) (by omega),
        iff_of_false (by decide) (by omega), iff_of_true rfl (by omega)⟩
  · exact ⟨by decide, by decide, by decide, by decide, by decide, by decide⟩

/-- Witness for C8 at minute 0. -/
theorem C8_witness : session_of_minute 0 = ("ASIA") :=
  ((C8_session_partition.1 0).1).mpr (by decide)

/-! ### C9 -/

theorem trimTo_length (n : Nat) (l : List α) :
    (trimTo n l).length = min l.length n := by
  unfold trimTo
  split_ifs with h
  · simp only [List.length_drop]
    omega
  · omega

theorem trimTo_suffix (n : Nat) (l : List α) : List.IsSuffix (trimTo n l) l := by
  unfold trimTo
  split_ifs with h
  · exact List.drop_suffix _ _
  · exact List.suffix_refl l

/-- C9: the retention bound is an invariant of every logger append: after
`log_analysis` the stored list holds exactly min(previous+1, 500) entries,
after `log_performance` at most 200 and after `save_market_data` at most
1000, and what remains is always a suffix of the appended list, so the
discarded entries are the oldest ones. -/
theorem C9_logger_retention :
    ∀ (α : Type) (l : List α) (entry : α),
      ((log_analysis l entry).length = min (l.length + 1) 500 ∧
        List.IsSuffix (log_analysis l entry) (l ++ [entry])) ∧
      ((log_performance l entry).length = min (l.length + 1) 200 ∧
        List.IsSuffix (log_performance l entry) (l ++ [entry])) ∧
      ((save_market_data l entry).length = min (l.length + 1) 1000 ∧
        List.IsSuffix (save_market_data l entry) (l ++ [entry])) := by
  intro α l entry
  refine ⟨⟨?_, trimTo_suffix _ _⟩, ⟨?_, trimTo_suffix _ _⟩, ⟨?_, trimTo_suffix _ _⟩⟩
  · simp [log_analysis, trimTo_length]
  · simp [log_performance, trimTo_length]
  · simp [save_market_data, trimTo_length]

/-! ### C10 -/

/-- C10: a parsed stop loss of zero is treated exactly like an absent one by
both gates: the zero lines parse to the value 0, a success record whose stop
loss parsed as 0 never carries BUY or SELL (the safety gate forces NO TRADE),
and the alert gate rejects every record whose stop loss is 0 or missing,
because both tests use Python truthiness. -/
theorem C10_zero_stop_loss_like_absent :
    extract_stop_loss ("Stop Loss: 0") = some 0 ∧
      extract_stop_loss ("Stop Loss: 0.0") = some 0 ∧
      (∀ (text : String) (md : MarketSnapshot) (mode : Mode) (id : String)
          (hour : Nat) (r : AnalysisRecord),
          parse_structured_output (some text) md mode id hour
              = ParseOutput.success r →
          r.stop_loss = some 0 →
          r.trade_recommendation = ("NO TRADE")) ∧
      (∀ (mode : Mode) (r : AnalysisRecord),
        r.stop_loss = some 0 ∨ r.stop_loss = none →
        should_alert mode (ParseOutput.success r) = false) := by
  refine ⟨by decide, by decide, ?_, ?_⟩
  · intro text md mode id hour r h hz
    obtain ⟨_, _, hsl, htr, _⟩ := parse_success_fields text md mode id hour r h
    rw [hsl] at hz
    rcases apply_safety_cases mode (extract_trade_recommendation text)
        (extract_confidence text) (extract_risk_level text) (extract_stop_loss text)
      with hcase | ⟨heq, _, _, himp⟩
    · rw [htr, hcase]
    · rw [htr, heq]
      rcases extract_trade_mem text with ht | ht | ht
      · have hb := himp (Or.inl ht)
        rw [hz] at hb
        exact absurd hb (by decide)
      · have hb := himp (Or.inr ht)
        rw [hz] at hb
        exact absurd hb (by decide)
      · exact ht
  · intro mode r hz
    have hf : truthyPrice r.stop_loss = false := by
      rcases hz with hz | hz
      · rw [hz]; rfl
      · rw [hz]; rfl
    simp only [should_alert]
    split_ifs with h1 h2 h3 h4 <;> rfl

def c10Text : String :=
  "Trade Recommendation: SELL\nConfidence Score: 9\nRisk Level: LOW\nStop Loss: 0"

/-- The record parsed from `c10Text` in intraday mode. -/
def c10Rec : AnalysisRecord :=
  match parse_structured_output (some c10Text) exMD Mode.intraday ("wa") 10 with
  | ParseOutput.success r => r
  | ParseOutput.failure _ _ _ => default

/-- Witness for C10: a concrete SELL text with a zero stop loss is forced to
NO TRADE and never alerts. -/
theorem C10_witness :
    c10Rec.trade_recommendation = ("NO TRADE") ∧
      should_alert Mode.intraday (ParseOutput.success c10Rec) = false :=
  ⟨C10_zero_stop_loss_like_absent.2.2.1 c10Text exMD Mode.intraday ("wa") 10 c10Rec
      rfl (by decide),
    C10_zero_stop_loss_like_absent.2.2.2 Mode.intraday c10Rec (Or.inl (by decide))⟩

end XauUsd
